import Mathlib

/-!
Shallow embedding of `src/libzmix/bulletproofs_amcl/src/r1cs/gadgets/pairing_plus_wrapper.rs`
(zkp-ld/ursa).  The wrapper bridges scalars and G1 points between the
`pairing_plus` representation (representation A: fixed little-endian 64-bit
limb arrays) and the `amcl_wrapper` representation (representation B:
big-endian byte buffers), and orchestrates an external bounded-number gadget
to generate and verify range proofs.

Machine integers are modelled as `Nat` with explicit bounds; a Rust `panic!`
(`unwrap` on `None`, arithmetic underflow with overflow checks enabled) is
modelled by an `Option` result being `none`.  The bounded-number gadget
(`gen_proof_of_bounded_num` / `verify_proof_of_bounded_num`, repository code
outside the provided slice) is abstracted as a function parameter, so the
theorems quantify over every possible gadget behaviour.
-/

namespace PairingPlusWrapper

set_option maxRecDepth 8000
set_option exponentiation.threshold 400

/-- Representation A of a scalar (`pairing_plus::bls12_381::FrRepr`):
four 64-bit unsigned limbs, least-significant limb first. -/
structure FrRepr where
  limbs : Fin 4 → Nat

/-- The limbs are genuine `u64` values. -/
def FrRepr.limbsValid (x : FrRepr) : Prop := ∀ i, x.limbs i < 2 ^ 64

/-- Numeric value of a 4-limb little-endian representation. -/
def FrRepr.value (x : FrRepr) : Nat :=
  x.limbs 0 + x.limbs 1 * 2 ^ 64 + x.limbs 2 * 2 ^ 128 + x.limbs 3 * 2 ^ 192

/-- Order `r` of the BLS12-381 G1 group (the scalar field modulus shared by
both libraries). -/
def curveOrder : Nat :=
  0x73eda753299d7d483339d80809a1d80553bda402fffe5bfeffffffff00000001

/-- A canonical scalar as produced by `Fr::into_repr`: valid limbs, value
reduced modulo the scalar field order. -/
def FrRepr.valid (x : FrRepr) : Prop := x.limbsValid ∧ x.value < curveOrder

instance (x : FrRepr) : Decidable x.limbsValid := by
  unfold FrRepr.limbsValid; infer_instance

instance (x : FrRepr) : Decidable x.valid := by
  unfold FrRepr.valid; infer_instance

/-- Representation A of a base-field element (`pairing_plus::bls12_381::FqRepr`):
six 64-bit unsigned limbs, least-significant limb first. -/
structure FqRepr where
  limbs : Fin 6 → Nat

/-- The limbs are genuine `u64` values. -/
def FqRepr.limbsValid (x : FqRepr) : Prop := ∀ i, x.limbs i < 2 ^ 64

/-- Numeric value of a 6-limb little-endian representation. -/
def FqRepr.value (x : FqRepr) : Nat :=
  x.limbs 0 + x.limbs 1 * 2 ^ 64 + x.limbs 2 * 2 ^ 128 + x.limbs 3 * 2 ^ 192 +
    x.limbs 4 * 2 ^ 256 + x.limbs 5 * 2 ^ 320

instance (x : FqRepr) : Decidable x.limbsValid := by
  unfold FqRepr.limbsValid; infer_instance

/-- BLS12-381 base field modulus `q` (384-bit). -/
def baseFieldOrder : Nat :=
  0x1a0111ea397fe69a4b1ba7b6434bacd764774b84f38512bf6730d2a0f6b0f6241eabfffeb153ffffb9feffffffffaaab

/-- Rust `u64::to_be_bytes`: the eight big-endian bytes of a 64-bit integer. -/
def u64ToBeBytes (x : Nat) : List Nat :=
  [x / 2 ^ 56 % 256, x / 2 ^ 48 % 256, x / 2 ^ 40 % 256, x / 2 ^ 32 % 256,
   x / 2 ^ 24 % 256, x / 2 ^ 16 % 256, x / 2 ^ 8 % 256, x % 256]

/-- Big-endian interpretation of a byte list. -/
def beBytesToNat (bs : List Nat) : Nat :=
  bs.foldl (fun acc b => acc * 256 + b) 0

/-- The 48-byte buffer built by `pp_fr_to_amcl_fieldelement` (lines 166-172):
starting from `[0u8; 48]`, loop `i` in `0..4` writes `u64_array[3 - i]` in
big-endian at offset `i * 8 + 16`, so the buffer is 16 zero bytes followed by
the limbs most-significant first, each big-endian. -/
def pp_fr_to_amcl_bytes (fr : FrRepr) : List Nat :=
  List.replicate 16 0 ++ u64ToBeBytes (fr.limbs 3) ++ u64ToBeBytes (fr.limbs 2) ++
    u64ToBeBytes (fr.limbs 1) ++ u64ToBeBytes (fr.limbs 0)

/-- Modelled from the spec: `amcl_wrapper`'s `FieldElement::from_bytes`
(library B's field-element constructor, an external collaborator).  "Fails
only if library B rejects the byte pattern as out of range for its field";
otherwise it yields the field element with the buffer's big-endian numeric
value. -/
def fieldElement_from_bytes (bs : List Nat) : Option Nat :=
  if bs.length = 48 ∧ beBytesToNat bs < curveOrder then some (beBytesToNat bs)
  else none

/-- The function `pp_fr_to_amcl_fieldelement` (lines 163-174): build the zero-padded
48-byte big-endian buffer and parse it with library B's field-element
constructor.  The source calls `.unwrap()` on the result, so a `none` here
models a panic of the whole call. -/
def pp_fr_to_amcl_fieldelement (fr : FrRepr) : Option Nat :=
  fieldElement_from_bytes (pp_fr_to_amcl_bytes fr)

/-- The 48-byte buffer built by `pp_fq_to_amcl_big` (lines 179-185):
starting from `[0u8; 48]`, loop `i` in `0..6` writes `pp_u64_array[5 - i]` in
big-endian at offset `i * 8`: the six limbs fill the whole buffer,
most-significant first, no zero-padding prefix. -/
def pp_fq_to_amcl_bytes (fq : FqRepr) : List Nat :=
  u64ToBeBytes (fq.limbs 5) ++ u64ToBeBytes (fq.limbs 4) ++ u64ToBeBytes (fq.limbs 3) ++
    u64ToBeBytes (fq.limbs 2) ++ u64ToBeBytes (fq.limbs 1) ++ u64ToBeBytes (fq.limbs 0)

/-- Modelled from the spec: `amcl`'s `BIG::frombytes`, which interprets a
48-byte buffer as a big-endian big-integer (no reduction, no failure). -/
def BIG_frombytes (bs : List Nat) : Nat := beBytesToNat (bs.take 48)

/-- The function `pp_fq_to_amcl_big` (lines 176-187): pack the six limbs into the 48-byte
big-endian buffer and read it back as an `amcl` `BIG`. -/
def pp_fq_to_amcl_big (fq : FqRepr) : Nat :=
  BIG_frombytes (pp_fq_to_amcl_bytes fq)

/- ### Point bridge -/

/-- Representation A of a G1 point (`pairing_plus::bls12_381::G1`), reduced
to what `pp_g1_to_amcl_ecp` observes of it: `into_affine().as_tuple()`, the
affine coordinate pair over the base field. -/
structure PpG1 where
  x : FqRepr
  y : FqRepr

/-- A valid representation-A point: genuine `u64` limbs and canonical
base-field coordinates (values below the field modulus `q`). -/
def PpG1.valid (p : PpG1) : Prop :=
  p.x.limbsValid ∧ p.y.limbsValid ∧
    p.x.value < baseFieldOrder ∧ p.y.value < baseFieldOrder

instance (p : PpG1) : Decidable p.valid := by
  unfold PpG1.valid; infer_instance

/-- Representation B of a G1 point (`amcl_wrapper`'s `G1`), identified by its
affine coordinate pair as big-integers. -/
structure G1B where
  x : Nat
  y : Nat
  deriving DecidableEq

/-- Modelled from the spec: `ECP::new_bigs` builds a library-B point object
from the two big-integer coordinates. -/
def ECP_new_bigs (x y : Nat) : G1B := ⟨x, y⟩

/-- Big-endian `k`-byte encoding of a big-integer. -/
def natToBeBytes : Nat → Nat → List Nat
  | 0, _ => []
  | k + 1, n => natToBeBytes k (n / 256) ++ [n % 256]

/-- Modelled from the spec: `ECP::tobytes(buf, false)`, the uncompressed
97-byte encoding — 1 leading format byte (0x04), then the 48-byte big-endian
x coordinate, then the 48-byte big-endian y coordinate. -/
def ECP_tobytes_uncompressed (p : G1B) : List Nat :=
  4 :: (natToBeBytes 48 p.x ++ natToBeBytes 48 p.y)

/-- Modelled from the spec: `G1::from_bytes`, library B's validating parser
of the uncompressed 97-byte encoding.  It accepts exactly a 97-byte buffer
with the uncompressed format byte and coordinates in range for the base
field, and yields the point with those coordinates; anything else fails. -/
def G1_from_bytes (bs : List Nat) : Option G1B :=
  match bs with
  | 4 :: rest =>
      if rest.length = 96 ∧
          beBytesToNat (rest.take 48) < baseFieldOrder ∧
          beBytesToNat (rest.drop 48) < baseFieldOrder then
        some ⟨beBytesToNat (rest.take 48), beBytesToNat (rest.drop 48)⟩
      else none
  | _ => none

/-- The function `pp_g1_to_amcl_ecp` (lines 189-195): take the affine coordinate pair,
convert each base-field coordinate with `pp_fq_to_amcl_big`, and build the
library-B point object with `ECP::new_bigs`. -/
def pp_g1_to_amcl_ecp (g1 : PpG1) : G1B :=
  ECP_new_bigs (pp_fq_to_amcl_big g1.x) (pp_fq_to_amcl_big g1.y)

/-- The function `pp_g1_to_amcl_g1` (lines 197-202): serialize the intermediate point
uncompressed into a 97-byte buffer and reparse it as the final library-B
point type.  The source calls `.unwrap()`, so `none` models a panic. -/
def pp_g1_to_amcl_g1 (g1 : PpG1) : Option G1B :=
  G1_from_bytes (ECP_tobytes_uncompressed (pp_g1_to_amcl_ecp g1))

/- ### Range-proof orchestration -/

deriving instance DecidableEq for Except

/-- Error type of `gen_rangeproof` (lines 19-24). -/
inductive GenRangeProofError where
  | ValOverflow
  | InvalidProof
  | InvalidCommitment
  deriving DecidableEq

/-- Error type of `verify_rangeproof` (lines 40-44). -/
inductive VerifyRangeProofError where
  | VerificationError
  | InvalidCommitment
  deriving DecidableEq

/-- Opaque proof transcript produced by the bounded-number gadget
(`R1CSProof`). -/
structure R1CSProof where
  blob : Nat
  deriving DecidableEq

/-- Opaque error of the bounded-number gadget (`R1CSError`). -/
structure R1CSError where
  code : Nat
  deriving DecidableEq

/-- The proof artifact returned by `gen_rangeproof` (lines 59-63): the
transcript plus the two auxiliary commitments `[com_min, com_max]`. -/
structure Bulletproof where
  proof : R1CSProof
  commitments : G1B × G1B
  deriving DecidableEq

/-- Argument tuple of `gen_proof_of_bounded_num` in the order of the call at
lines 96-107. -/
structure GenGadgetArgs where
  val : Nat
  blinding : Option Nat
  lower : Nat
  upper : Nat
  max_bits_in_val : Nat
  transcript_label : List Nat
  g : G1B
  h : G1B
  G_vec : List G1B
  H_vec : List G1B

/-- Result of `gen_proof_of_bounded_num`: a transcript plus
`(com_v, [com_min, com_max])`, or a gadget error. -/
inductive GenGadgetResult where
  | ok (proof : R1CSProof) (com_v com_min com_max : G1B)
  | err (e : R1CSError)

/-- Argument tuple of `verify_proof_of_bounded_num` in the order of the call
at lines 146-157. -/
structure VerifyGadgetArgs where
  lower : Nat
  upper : Nat
  max_bits_in_val : Nat
  proof : R1CSProof
  commitments : G1B × (G1B × G1B)
  transcript_label : List Nat
  g : G1B
  h : G1B
  G_vec : List G1B
  H_vec : List G1B

/-- Rust `u64` subtraction with overflow checks: panics (`none`) on
underflow. -/
def checked_sub (a b : Nat) : Option Nat :=
  if b ≤ a then some (a - b) else none

/-- Rust `u64::leading_zeros`: the number of leading zero bits in the 64-bit
representation, i.e. 64 minus the bit length (64 for zero).  The bit length
of `n < 2^64` is the number of exponents `k < 64` with `2^k ≤ n`. -/
def leading_zeros64 (n : Nat) : Nat :=
  64 - (List.range 64).countP (fun k => 2 ^ k ≤ n)

/-- Rust `u32` to `usize` conversion via `try_into().unwrap()`: fails only when
the value does not fit a `usize` (64-bit here). -/
def u32_try_into_usize (n : Nat) : Option Nat :=
  if n < 2 ^ 64 then some n else none

/-- Line 80 of `gen_rangeproof`:
`(64 - (upper - lower).leading_zeros()).try_into().unwrap()`.
`none` models a panic (underflow of the subtraction, or conversion
failure). -/
def gen_max_bits_in_val (lower upper : Nat) : Option Nat := do
  let d ← checked_sub upper lower
  u32_try_into_usize (64 - leading_zeros64 d)

/-- Line 137 of `verify_rangeproof`: the same expression, recomputed
independently by the verifier. -/
def verify_max_bits_in_val (lower upper : Nat) : Option Nat := do
  let d ← checked_sub upper lower
  u32_try_into_usize (64 - leading_zeros64 d)

/-- The function `gen_rangeproof` (lines 65-121), parameterised by the bounded-number
gadget `gadget` and the generator supplier `getGen` (repository code outside
the provided slice).  The outer `Option` models panic-freedom: `none` is a
panic, `some r` is the returned `Result`. -/
def gen_rangeproof (gadget : GenGadgetArgs → GenGadgetResult)
    (getGen : String → Nat → List G1B)
    (val blinding : FrRepr) (lower upper : Nat) (transcript_label : List Nat)
    (g h c : PpG1) : Option (Except GenRangeProofError Bulletproof) := do
  let Gv := getGen "G" 128
  let Hv := getGen "H" 128
  let max_bits_in_val ← gen_max_bits_in_val lower upper
  let val_ref := val.limbs
  if val_ref 1 > 0 ∨ val_ref 2 > 0 ∨ val_ref 3 > 0 then
    return Except.error GenRangeProofError.ValOverflow
  else
    let v := val_ref 0
    let blinding ← pp_fr_to_amcl_fieldelement blinding
    let g ← pp_g1_to_amcl_g1 g
    let h ← pp_g1_to_amcl_g1 h
    let c ← pp_g1_to_amcl_g1 c
    match gadget ⟨v, some blinding, lower, upper, max_bits_in_val,
        transcript_label, g, h, Gv, Hv⟩ with
    | GenGadgetResult.ok proof com_v com_min com_max =>
        if c = com_v then
          return Except.ok ⟨proof, (com_min, com_max)⟩
        else
          return Except.error GenRangeProofError.InvalidCommitment
    | GenGadgetResult.err _ =>
        return Except.error GenRangeProofError.InvalidProof

/-- The function `verify_rangeproof` (lines 123-161), parameterised by the gadget's
verification routine and the generator supplier, with the same panic
convention as `gen_rangeproof`. -/
def verify_rangeproof (vgadget : VerifyGadgetArgs → Except R1CSError Unit)
    (getGen : String → Nat → List G1B)
    (bp : Bulletproof) (lower upper : Nat) (transcript_label : List Nat)
    (g h c : PpG1) : Option (Except VerifyRangeProofError Unit) := do
  let Gv := getGen "G" 128
  let Hv := getGen "H" 128
  let max_bits_in_val ← verify_max_bits_in_val lower upper
  let g ← pp_g1_to_amcl_g1 g
  let h ← pp_g1_to_amcl_g1 h
  let c ← pp_g1_to_amcl_g1 c
  let commitments := (c, bp.commitments)
  match vgadget ⟨lower, upper, max_bits_in_val, bp.proof, commitments,
      transcript_label, g, h, Gv, Hv⟩ with
  | Except.ok _ => return Except.ok ()
  | Except.error _ => return Except.error VerifyRangeProofError.VerificationError

/- ### Arithmetic lemmas about the byte packing -/

theorem beBytesToNat_cons (b : Nat) (bs : List Nat) :
    beBytesToNat (b :: bs) = b * 256 ^ bs.length + beBytesToNat bs := by
  have key : ∀ (bs : List Nat) (c : Nat),
      bs.foldl (fun acc b => acc * 256 + b) c =
        c * 256 ^ bs.length + bs.foldl (fun acc b => acc * 256 + b) 0 := by
    intro bs
    induction bs with
    | nil => intro c; simp
    | cons x xs ih =>
        intro c
        simp only [List.foldl_cons, List.length_cons]
        rw [ih (c * 256 + x), ih (0 * 256 + x)]
        ring
  simp only [beBytesToNat, List.foldl_cons]
  rw [key bs (0 * 256 + b)]
  ring

theorem beBytesToNat_append (a b : List Nat) :
    beBytesToNat (a ++ b) = beBytesToNat a * 256 ^ b.length + beBytesToNat b := by
  induction a with
  | nil => simp [beBytesToNat]
  | cons x xs ih =>
      simp only [List.cons_append, beBytesToNat_cons, List.length_append]
      rw [ih]
      ring

theorem beBytesToNat_u64ToBeBytes (x : Nat) (h : x < 2 ^ 64) :
    beBytesToNat (u64ToBeBytes x) = x := by
  simp only [u64ToBeBytes, beBytesToNat, List.foldl_cons, List.foldl_nil]
  omega

theorem u64ToBeBytes_length (x : Nat) : (u64ToBeBytes x).length = 8 := rfl

theorem beBytesToNat_replicate_zero : beBytesToNat (List.replicate 16 0) = 0 := rfl

theorem pp_fr_to_amcl_bytes_length (x : FrRepr) :
    (pp_fr_to_amcl_bytes x).length = 48 := by
  simp [pp_fr_to_amcl_bytes, u64ToBeBytes]

theorem pp_fq_to_amcl_bytes_length (x : FqRepr) :
    (pp_fq_to_amcl_bytes x).length = 48 := by
  simp [pp_fq_to_amcl_bytes, u64ToBeBytes]

theorem beBytesToNat_pp_fr_to_amcl_bytes (x : FrRepr) (hx : x.limbsValid) :
    beBytesToNat (pp_fr_to_amcl_bytes x) = x.value := by
  simp only [pp_fr_to_amcl_bytes, beBytesToNat_append, List.length_append,
    u64ToBeBytes_length, List.length_replicate, beBytesToNat_replicate_zero,
    beBytesToNat_u64ToBeBytes _ (hx 0), beBytesToNat_u64ToBeBytes _ (hx 1),
    beBytesToNat_u64ToBeBytes _ (hx 2), beBytesToNat_u64ToBeBytes _ (hx 3),
    FrRepr.value]
  ring_nf

theorem beBytesToNat_pp_fq_to_amcl_bytes (x : FqRepr) (hx : x.limbsValid) :
    beBytesToNat (pp_fq_to_amcl_bytes x) = x.value := by
  simp only [pp_fq_to_amcl_bytes, beBytesToNat_append, List.length_append,
    u64ToBeBytes_length,
    beBytesToNat_u64ToBeBytes _ (hx 0), beBytesToNat_u64ToBeBytes _ (hx 1),
    beBytesToNat_u64ToBeBytes _ (hx 2), beBytesToNat_u64ToBeBytes _ (hx 3),
    beBytesToNat_u64ToBeBytes _ (hx 4), beBytesToNat_u64ToBeBytes _ (hx 5),
    FqRepr.value]
  ring_nf

theorem pp_fr_to_amcl_fieldelement_eq (x : FrRepr) (hx : x.valid) :
    pp_fr_to_amcl_fieldelement x = some x.value := by
  unfold pp_fr_to_amcl_fieldelement fieldElement_from_bytes
  rw [beBytesToNat_pp_fr_to_amcl_bytes x hx.1, pp_fr_to_amcl_bytes_length]
  simp [hx.2]

theorem natToBeBytes_length (k n : Nat) : (natToBeBytes k n).length = k := by
  induction k generalizing n with
  | zero => rfl
  | succ k ih => simp [natToBeBytes, ih]

theorem beBytesToNat_natToBeBytes (k n : Nat) :
    beBytesToNat (natToBeBytes k n) = n % 256 ^ k := by
  induction k generalizing n with
  | zero => simp [natToBeBytes, beBytesToNat, Nat.mod_one]
  | succ k ih =>
      have h256 : (256 : Nat) ^ (k + 1) = 256 * 256 ^ k := by ring
      simp only [natToBeBytes, beBytesToNat_append, ih, h256, Nat.mod_mul]
      simp [beBytesToNat_cons, beBytesToNat]
      ring

theorem pp_fq_to_amcl_big_eq (x : FqRepr) (hx : x.limbsValid) :
    pp_fq_to_amcl_big x = x.value := by
  unfold pp_fq_to_amcl_big BIG_frombytes
  rw [List.take_of_length_le (le_of_eq (pp_fq_to_amcl_bytes_length x)),
    beBytesToNat_pp_fq_to_amcl_bytes x hx]

theorem pp_g1_to_amcl_g1_eq (p : PpG1) (hp : p.valid) :
    pp_g1_to_amcl_g1 p = some ⟨p.x.value, p.y.value⟩ := by
  obtain ⟨hxl, hyl, hxv, hyv⟩ := hp
  have hq : baseFieldOrder < 256 ^ 48 := by norm_num [baseFieldOrder]
  have hxmod : p.x.value % 256 ^ 48 = p.x.value :=
    Nat.mod_eq_of_lt (lt_trans hxv hq)
  have hymod : p.y.value % 256 ^ 48 = p.y.value :=
    Nat.mod_eq_of_lt (lt_trans hyv hq)
  unfold pp_g1_to_amcl_g1 G1_from_bytes ECP_tobytes_uncompressed
    pp_g1_to_amcl_ecp ECP_new_bigs
  rw [pp_fq_to_amcl_big_eq p.x hxl, pp_fq_to_amcl_big_eq p.y hyl]
  have htake : (natToBeBytes 48 p.x.value ++ natToBeBytes 48 p.y.value).take 48 =
      natToBeBytes 48 p.x.value := List.take_left' (natToBeBytes_length 48 p.x.value)
  have hdrop : (natToBeBytes 48 p.x.value ++ natToBeBytes 48 p.y.value).drop 48 =
      natToBeBytes 48 p.y.value := List.drop_left' (natToBeBytes_length 48 p.x.value)
  simp only [htake, hdrop, beBytesToNat_natToBeBytes, hxmod, hymod,
    List.length_append, natToBeBytes_length]
  simp [hxv, hyv]

/- ### Orchestration helper lemmas -/

theorem u32_try_into_usize_of_le {n : Nat} (h : n ≤ 64) :
    u32_try_into_usize n = some n := by
  unfold u32_try_into_usize
  rw [if_pos]
  have : (2 : Nat) ^ 64 = 18446744073709551616 := by norm_num
  omega

theorem gen_max_bits_in_val_of_le {lower upper : Nat} (h : lower ≤ upper) :
    gen_max_bits_in_val lower upper =
      some (64 - leading_zeros64 (upper - lower)) := by
  unfold gen_max_bits_in_val checked_sub
  rw [if_pos h]
  exact u32_try_into_usize_of_le (Nat.sub_le 64 _)

theorem gen_max_bits_in_val_of_lt {lower upper : Nat} (h : upper < lower) :
    gen_max_bits_in_val lower upper = none := by
  unfold gen_max_bits_in_val checked_sub
  rw [if_neg (by omega)]
  rfl

theorem verify_max_bits_in_val_of_le {lower upper : Nat} (h : lower ≤ upper) :
    verify_max_bits_in_val lower upper =
      some (64 - leading_zeros64 (upper - lower)) :=
  gen_max_bits_in_val_of_le h

theorem verify_max_bits_in_val_of_lt {lower upper : Nat} (h : upper < lower) :
    verify_max_bits_in_val lower upper = none :=
  gen_max_bits_in_val_of_lt h

theorem gen_rangeproof_run (gadget : GenGadgetArgs → GenGadgetResult)
    (getGen : String → Nat → List G1B) (val blinding : FrRepr)
    (lower upper : Nat) (transcript_label : List Nat) (g h c : PpG1)
    (hub : lower ≤ upper)
    (hval : ¬(val.limbs 1 > 0 ∨ val.limbs 2 > 0 ∨ val.limbs 3 > 0))
    (b' : Nat) (hb : pp_fr_to_amcl_fieldelement blinding = some b')
    (g' h' c' : G1B) (hg : pp_g1_to_amcl_g1 g = some g')
    (hh : pp_g1_to_amcl_g1 h = some h') (hc : pp_g1_to_amcl_g1 c = some c') :
    gen_rangeproof gadget getGen val blinding lower upper transcript_label g h c =
      some (match gadget ⟨val.limbs 0, some b', lower, upper,
          64 - leading_zeros64 (upper - lower), transcript_label, g', h',
          getGen "G" 128, getGen "H" 128⟩ with
        | GenGadgetResult.ok proof com_v com_min com_max =>
            if c' = com_v then Except.ok ⟨proof, (com_min, com_max)⟩
            else Except.error GenRangeProofError.InvalidCommitment
        | GenGadgetResult.err _ =>
            Except.error GenRangeProofError.InvalidProof) := by
  unfold gen_rangeproof
  rw [gen_max_bits_in_val_of_le hub]
  simp only [Option.bind_eq_bind, Option.some_bind, hb, hg, hh, hc]
  rw [if_neg hval]
  cases hG : gadget ⟨val.limbs 0, some b', lower, upper,
      64 - leading_zeros64 (upper - lower), transcript_label, g', h',
      getGen "G" 128, getGen "H" 128⟩ with
  | ok proof com_v com_min com_max =>
      by_cases hcv : c' = com_v <;> simp [hcv]
  | err e => simp

theorem verify_rangeproof_run (vgadget : VerifyGadgetArgs → Except R1CSError Unit)
    (getGen : String → Nat → List G1B) (bp : Bulletproof)
    (lower upper : Nat) (transcript_label : List Nat) (g h c : PpG1)
    (hub : lower ≤ upper)
    (g' h' c' : G1B) (hg : pp_g1_to_amcl_g1 g = some g')
    (hh : pp_g1_to_amcl_g1 h = some h') (hc : pp_g1_to_amcl_g1 c = some c') :
    verify_rangeproof vgadget getGen bp lower upper transcript_label g h c =
      some (match vgadget ⟨lower, upper, 64 - leading_zeros64 (upper - lower),
          bp.proof, (c', bp.commitments), transcript_label, g', h',
          getGen "G" 128, getGen "H" 128⟩ with
        | Except.ok _ => Except.ok ()
        | Except.error _ =>
            Except.error VerifyRangeProofError.VerificationError) := by
  unfold verify_rangeproof
  rw [verify_max_bits_in_val_of_le hub]
  simp only [Option.bind_eq_bind, Option.some_bind, hg, hh, hc]
  cases hV : vgadget ⟨lower, upper, 64 - leading_zeros64 (upper - lower),
      bp.proof, (c', bp.commitments), transcript_label, g', h',
      getGen "G" 128, getGen "H" 128⟩ with
  | ok u => simp
  | error e => simp

theorem gen_rangeproof_overflow (gadget : GenGadgetArgs → GenGadgetResult)
    (getGen : String → Nat → List G1B) (val blinding : FrRepr)
    (lower upper : Nat) (transcript_label : List Nat) (g h c : PpG1)
    (hub : lower ≤ upper)
    (hval : val.limbs 1 > 0 ∨ val.limbs 2 > 0 ∨ val.limbs 3 > 0) :
    gen_rangeproof gadget getGen val blinding lower upper transcript_label g h c =
      some (Except.error GenRangeProofError.ValOverflow) := by
  unfold gen_rangeproof
  rw [gen_max_bits_in_val_of_le hub]
  simp only [Option.bind_eq_bind, Option.some_bind]
  rw [if_pos hval]
  rfl

/- ### Claim theorems -/

/-- C5: for every pair `(lower, upper)` with `lower ≤ upper`,
`gen_rangeproof` and `verify_rangeproof` compute the same
`max_bits_in_val = 64 - count_leading_zero_bits(upper - lower)`;
in particular for `(lower = 0, upper = 255)` both compute 8. -/
theorem max_bits_determinism (lower upper : Nat) (h : lower ≤ upper) :
    gen_max_bits_in_val lower upper = verify_max_bits_in_val lower upper ∧
    gen_max_bits_in_val lower upper = some (64 - leading_zeros64 (upper - lower)) ∧
    gen_max_bits_in_val 0 255 = some 8 ∧ verify_max_bits_in_val 0 255 = some 8 :=
  ⟨rfl, gen_max_bits_in_val_of_le h, by decide, by decide⟩

/-- Witness for C5 at `(lower, upper) = (0, 255)`. -/
theorem max_bits_determinism_witness :
    gen_max_bits_in_val 0 255 = verify_max_bits_in_val 0 255 ∧
    gen_max_bits_in_val 0 255 = some (64 - leading_zeros64 (255 - 0)) ∧
    gen_max_bits_in_val 0 255 = some 8 ∧ verify_max_bits_in_val 0 255 = some 8 :=
  max_bits_determinism 0 255 (by norm_num)

/-- C9: if a caller violates the precondition `lower ≤ upper`, both
`gen_rangeproof` and `verify_rangeproof` panic on the unsigned subtraction
`upper - lower` (modelled by the overall result `none`) before any error
value can be returned; under the precondition the subtraction and the
conversion of `64 - leading_zeros` to `usize` are total and never panic. -/
theorem underflow_panics (gadget : GenGadgetArgs → GenGadgetResult)
    (vgadget : VerifyGadgetArgs → Except R1CSError Unit)
    (getGen : String → Nat → List G1B) (val blinding : FrRepr) (bp : Bulletproof)
    (lower upper : Nat) (transcript_label : List Nat) (g h c : PpG1) :
    (upper < lower →
      gen_rangeproof gadget getGen val blinding lower upper transcript_label g h c =
        none ∧
      verify_rangeproof vgadget getGen bp lower upper transcript_label g h c =
        none) ∧
    (lower ≤ upper →
      gen_max_bits_in_val lower upper =
        some (64 - leading_zeros64 (upper - lower)) ∧
      verify_max_bits_in_val lower upper =
        some (64 - leading_zeros64 (upper - lower)) ∧
      64 - leading_zeros64 (upper - lower) ≤ 64) := by
  constructor
  · intro hlt
    constructor
    · unfold gen_rangeproof
      rw [gen_max_bits_in_val_of_lt hlt]
      rfl
    · unfold verify_rangeproof
      rw [verify_max_bits_in_val_of_lt hlt]
      rfl
  · intro hle
    exact ⟨gen_max_bits_in_val_of_le hle, verify_max_bits_in_val_of_le hle,
      Nat.sub_le 64 _⟩

/-- Witness for C9: the violated precondition at `(lower, upper) = (1, 0)`
makes both calls panic, and at `(lower, upper) = (0, 255)` the bit-width
computation is total. -/
theorem underflow_panics_witness :
    (gen_rangeproof (fun _ => GenGadgetResult.err ⟨0⟩) (fun _ _ => [])
        ⟨![0, 0, 0, 0]⟩ ⟨![0, 0, 0, 0]⟩ 1 0 []
        ⟨⟨![0, 0, 0, 0, 0, 0]⟩, ⟨![0, 0, 0, 0, 0, 0]⟩⟩
        ⟨⟨![0, 0, 0, 0, 0, 0]⟩, ⟨![0, 0, 0, 0, 0, 0]⟩⟩
        ⟨⟨![0, 0, 0, 0, 0, 0]⟩, ⟨![0, 0, 0, 0, 0, 0]⟩⟩ = none ∧
      verify_rangeproof (fun _ => Except.ok ()) (fun _ _ => [])
        ⟨⟨0⟩, (⟨0, 0⟩, ⟨0, 0⟩)⟩ 1 0 []
        ⟨⟨![0, 0, 0, 0, 0, 0]⟩, ⟨![0, 0, 0, 0, 0, 0]⟩⟩
        ⟨⟨![0, 0, 0, 0, 0, 0]⟩, ⟨![0, 0, 0, 0, 0, 0]⟩⟩
        ⟨⟨![0, 0, 0, 0, 0, 0]⟩, ⟨![0, 0, 0, 0, 0, 0]⟩⟩ = none) ∧
    (gen_max_bits_in_val 0 255 = some (64 - leading_zeros64 (255 - 0)) ∧
      verify_max_bits_in_val 0 255 = some (64 - leading_zeros64 (255 - 0)) ∧
      64 - leading_zeros64 (255 - 0) ≤ 64) :=
  ⟨(underflow_panics (fun _ => GenGadgetResult.err ⟨0⟩) (fun _ => Except.ok ())
      (fun _ _ => []) ⟨![0, 0, 0, 0]⟩ ⟨![0, 0, 0, 0]⟩ ⟨⟨0⟩, (⟨0, 0⟩, ⟨0, 0⟩)⟩
      1 0 [] ⟨⟨![0, 0, 0, 0, 0, 0]⟩, ⟨![0, 0, 0, 0, 0, 0]⟩⟩
      ⟨⟨![0, 0, 0, 0, 0, 0]⟩, ⟨![0, 0, 0, 0, 0, 0]⟩⟩
      ⟨⟨![0, 0, 0, 0, 0, 0]⟩, ⟨![0, 0, 0, 0, 0, 0]⟩⟩).1 (by decide),
    (underflow_panics (fun _ => GenGadgetResult.err ⟨0⟩) (fun _ => Except.ok ())
      (fun _ _ => []) ⟨![0, 0, 0, 0]⟩ ⟨![0, 0, 0, 0]⟩ ⟨⟨0⟩, (⟨0, 0⟩, ⟨0, 0⟩)⟩
      0 255 [] ⟨⟨![0, 0, 0, 0, 0, 0]⟩, ⟨![0, 0, 0, 0, 0, 0]⟩⟩
      ⟨⟨![0, 0, 0, 0, 0, 0]⟩, ⟨![0, 0, 0, 0, 0, 0]⟩⟩
      ⟨⟨![0, 0, 0, 0, 0, 0]⟩, ⟨![0, 0, 0, 0, 0, 0]⟩⟩).2 (by decide)⟩

/-- C10: for the zero-width range `upper = lower`, both `gen_rangeproof`
and `verify_rangeproof` compute `max_bits_in_val = 0` (the leading-zero
count of `upper - lower = 0` is 64) and proceed to invoke the gadget with
bit-width 0 rather than rejecting the range as invalid. -/
theorem zero_width_range (gadget : GenGadgetArgs → GenGadgetResult)
    (vgadget : VerifyGadgetArgs → Except R1CSError Unit)
    (getGen : String → Nat → List G1B) (val blinding : FrRepr) (bp : Bulletproof)
    (lower : Nat) (transcript_label : List Nat) (g h c : PpG1)
    (hvz : ¬(val.limbs 1 > 0 ∨ val.limbs 2 > 0 ∨ val.limbs 3 > 0))
    (b' : Nat) (hb : pp_fr_to_amcl_fieldelement blinding = some b')
    (g' h' c' : G1B) (hg : pp_g1_to_amcl_g1 g = some g')
    (hh : pp_g1_to_amcl_g1 h = some h') (hc : pp_g1_to_amcl_g1 c = some c') :
    gen_max_bits_in_val lower lower = some 0 ∧
    verify_max_bits_in_val lower lower = some 0 ∧
    gen_rangeproof gadget getGen val blinding lower lower transcript_label g h c =
      some (match gadget ⟨val.limbs 0, some b', lower, lower, 0,
          transcript_label, g', h', getGen "G" 128, getGen "H" 128⟩ with
        | GenGadgetResult.ok proof com_v com_min com_max =>
            if c' = com_v then Except.ok ⟨proof, (com_min, com_max)⟩
            else Except.error GenRangeProofError.InvalidCommitment
        | GenGadgetResult.err _ =>
            Except.error GenRangeProofError.InvalidProof) ∧
    verify_rangeproof vgadget getGen bp lower lower transcript_label g h c =
      some (match vgadget ⟨lower, lower, 0, bp.proof, (c', bp.commitments),
          transcript_label, g', h', getGen "G" 128, getGen "H" 128⟩ with
        | Except.ok _ => Except.ok ()
        | Except.error _ =>
            Except.error VerifyRangeProofError.VerificationError) := by
  have h0 : 64 - leading_zeros64 (lower - lower) = 0 := by
    rw [Nat.sub_self]
    decide
  have hgen := gen_rangeproof_run gadget getGen val blinding lower lower
    transcript_label g h c (le_refl lower) hvz b' hb g' h' c' hg hh hc
  have hver := verify_rangeproof_run vgadget getGen bp lower lower
    transcript_label g h c (le_refl lower) g' h' c' hg hh hc
  rw [h0] at hgen hver
  refine ⟨?_, ?_, hgen, hver⟩
  · rw [gen_max_bits_in_val_of_le (le_refl lower), h0]
  · rw [verify_max_bits_in_val_of_le (le_refl lower), h0]

/-- Witness for C10 at `lower = upper = 100` with an always-failing proving
gadget and an always-accepting verification gadget. -/
theorem zero_width_range_witness :
    gen_max_bits_in_val 100 100 = some 0 ∧
    verify_max_bits_in_val 100 100 = some 0 ∧
    gen_rangeproof (fun _ => GenGadgetResult.err ⟨0⟩) (fun _ _ => [])
      ⟨![0, 0, 0, 0]⟩ ⟨![0, 0, 0, 0]⟩ 100 100 []
      ⟨⟨![0, 0, 0, 0, 0, 0]⟩, ⟨![0, 0, 0, 0, 0, 0]⟩⟩
      ⟨⟨![0, 0, 0, 0, 0, 0]⟩, ⟨![0, 0, 0, 0, 0, 0]⟩⟩
      ⟨⟨![0, 0, 0, 0, 0, 0]⟩, ⟨![0, 0, 0, 0, 0, 0]⟩⟩ =
      some (Except.error GenRangeProofError.InvalidProof) ∧
    verify_rangeproof (fun _ => Except.ok ()) (fun _ _ => [])
      ⟨⟨0⟩, (⟨0, 0⟩, ⟨0, 0⟩)⟩ 100 100 []
      ⟨⟨![0, 0, 0, 0, 0, 0]⟩, ⟨![0, 0, 0, 0, 0, 0]⟩⟩
      ⟨⟨![0, 0, 0, 0, 0, 0]⟩, ⟨![0, 0, 0, 0, 0, 0]⟩⟩
      ⟨⟨![0, 0, 0, 0, 0, 0]⟩, ⟨![0, 0, 0, 0, 0, 0]⟩⟩ =
      some (Except.ok ()) :=
  zero_width_range (fun _ => GenGadgetResult.err ⟨0⟩) (fun _ => Except.ok ())
    (fun _ _ => []) ⟨![0, 0, 0, 0]⟩ ⟨![0, 0, 0, 0]⟩ ⟨⟨0⟩, (⟨0, 0⟩, ⟨0, 0⟩)⟩
    100 [] ⟨⟨![0, 0, 0, 0, 0, 0]⟩, ⟨![0, 0, 0, 0, 0, 0]⟩⟩
    ⟨⟨![0, 0, 0, 0, 0, 0]⟩, ⟨![0, 0, 0, 0, 0, 0]⟩⟩
    ⟨⟨![0, 0, 0, 0, 0, 0]⟩, ⟨![0, 0, 0, 0, 0, 0]⟩⟩
    (by decide) 0 (by decide) ⟨0, 0⟩ ⟨0, 0⟩ ⟨0, 0⟩
    (by decide) (by decide) (by decide)

/-- C3: for every scalar `x` in representation A (four 64-bit limbs,
least-significant first), `pp_fr_to_amcl_fieldelement` builds a 48-byte
buffer of 16 zero bytes followed by the 4 limbs most-significant-limb-first,
each big-endian (this layout is the definition of `pp_fr_to_amcl_bytes`),
and the numeric value of the resulting representation-B field element equals
the numeric value of `x` exactly. -/
theorem scalar_bridge_preserves_value (x : FrRepr) (hx : x.valid) :
    pp_fr_to_amcl_fieldelement x = some x.value ∧
    pp_fr_to_amcl_bytes x =
      List.replicate 16 0 ++ u64ToBeBytes (x.limbs 3) ++ u64ToBeBytes (x.limbs 2) ++
        u64ToBeBytes (x.limbs 1) ++ u64ToBeBytes (x.limbs 0) :=
  ⟨pp_fr_to_amcl_fieldelement_eq x hx, rfl⟩

/-- Witness for C3 at the concrete scalar with limbs `(5, 6, 7, 8)`. -/
theorem scalar_bridge_preserves_value_witness :
    FrRepr.valid ⟨![5, 6, 7, 8]⟩ ∧
    pp_fr_to_amcl_fieldelement ⟨![5, 6, 7, 8]⟩ =
      some (5 + 6 * 2 ^ 64 + 7 * 2 ^ 128 + 8 * 2 ^ 192) :=
  ⟨by decide, (scalar_bridge_preserves_value ⟨![5, 6, 7, 8]⟩ (by decide)).1⟩

/-- C7: the base-field coordinate conversion `pp_fq_to_amcl_big` is a
routine distinct from the scalar conversion: it packs six 64-bit limbs,
most-significant-limb-first and each big-endian, into the full 48-byte
buffer with no zero-padding prefix (the first 8 bytes are the big-endian top
limb), preserving the numeric value. -/
theorem base_field_bridge_preserves_value (x : FqRepr) (hx : x.limbsValid) :
    pp_fq_to_amcl_big x = x.value ∧
    (pp_fq_to_amcl_bytes x).length = 48 ∧
    (pp_fq_to_amcl_bytes x).take 8 = u64ToBeBytes (x.limbs 5) := by
  refine ⟨pp_fq_to_amcl_big_eq x hx, pp_fq_to_amcl_bytes_length x, ?_⟩
  unfold pp_fq_to_amcl_bytes
  rw [← u64ToBeBytes_length (x.limbs 5)]
  simp [List.take_left]

/-- Witness for C7 at the concrete base-field element with limbs
`(1, 2, 3, 4, 5, 6)` — a value above `2^256`, outside the scalar routine's
domain. -/
theorem base_field_bridge_preserves_value_witness :
    FqRepr.limbsValid ⟨![1, 2, 3, 4, 5, 6]⟩ ∧
    pp_fq_to_amcl_big ⟨![1, 2, 3, 4, 5, 6]⟩ =
      1 + 2 * 2 ^ 64 + 3 * 2 ^ 128 + 4 * 2 ^ 192 + 5 * 2 ^ 256 + 6 * 2 ^ 320 :=
  ⟨by decide, (base_field_bridge_preserves_value ⟨![1, 2, 3, 4, 5, 6]⟩ (by decide)).1⟩

/-- C6: for every valid representation-A point, `pp_g1_to_amcl_g1` converts
to affine coordinates, builds the two big-integers, constructs the library-B
point object, serializes it as the 97-byte uncompressed encoding and
reparses it, and the final library-B point carries exactly the same affine
coordinates — the same group element. -/
theorem point_bridge_round_trip (p : PpG1) (hp : p.valid) :
    pp_g1_to_amcl_g1 p = some ⟨p.x.value, p.y.value⟩ ∧
    (ECP_tobytes_uncompressed (pp_g1_to_amcl_ecp p)).length = 97 := by
  refine ⟨pp_g1_to_amcl_g1_eq p hp, ?_⟩
  simp [ECP_tobytes_uncompressed, natToBeBytes_length]

/-- Witness for C6 at the concrete point with coordinates `x = 13`,
`y = 2^320` (limbwise `(13,0,0,0,0,0)` and `(0,0,0,0,0,1)`). -/
theorem point_bridge_round_trip_witness :
    PpG1.valid ⟨⟨![13, 0, 0, 0, 0, 0]⟩, ⟨![0, 0, 0, 0, 0, 1]⟩⟩ ∧
    pp_g1_to_amcl_g1 ⟨⟨![13, 0, 0, 0, 0, 0]⟩, ⟨![0, 0, 0, 0, 0, 1]⟩⟩ =
      some ⟨13, 2 ^ 320⟩ :=
  ⟨by decide,
    (point_bridge_round_trip ⟨⟨![13, 0, 0, 0, 0, 0]⟩, ⟨![0, 0, 0, 0, 0, 1]⟩⟩
      (by decide)).1⟩

/-- C1: for every call to `gen_rangeproof` in which the bounded-number
gadget succeeds, a `Bulletproof` is returned if and only if the gadget's
internally computed commitment `com_v` equals the bridged external
commitment `c`; if they differ the result is `InvalidCommitment`, and if
the gadget itself fails the result is `InvalidProof` — in no case is a
`Bulletproof` returned when either check fails. -/
theorem gen_commitment_dispatch (gadget : GenGadgetArgs → GenGadgetResult)
    (getGen : String → Nat → List G1B) (val blinding : FrRepr)
    (lower upper : Nat) (transcript_label : List Nat) (g h c : PpG1)
    (hub : lower ≤ upper)
    (hvz : ¬(val.limbs 1 > 0 ∨ val.limbs 2 > 0 ∨ val.limbs 3 > 0))
    (b' : Nat) (hb : pp_fr_to_amcl_fieldelement blinding = some b')
    (g' h' c' : G1B) (hg : pp_g1_to_amcl_g1 g = some g')
    (hh : pp_g1_to_amcl_g1 h = some h') (hc : pp_g1_to_amcl_g1 c = some c') :
    (∀ proof com_v com_min com_max,
      gadget ⟨val.limbs 0, some b', lower, upper,
          64 - leading_zeros64 (upper - lower), transcript_label, g', h',
          getGen "G" 128, getGen "H" 128⟩ =
        GenGadgetResult.ok proof com_v com_min com_max →
      ((∃ bp, gen_rangeproof gadget getGen val blinding lower upper
          transcript_label g h c = some (Except.ok bp)) ↔ c' = com_v) ∧
      (c' = com_v →
        gen_rangeproof gadget getGen val blinding lower upper transcript_label
          g h c = some (Except.ok ⟨proof, (com_min, com_max)⟩)) ∧
      (c' ≠ com_v →
        gen_rangeproof gadget getGen val blinding lower upper transcript_label
          g h c = some (Except.error GenRangeProofError.InvalidCommitment))) ∧
    (∀ e, gadget ⟨val.limbs 0, some b', lower, upper,
          64 - leading_zeros64 (upper - lower), transcript_label, g', h',
          getGen "G" 128, getGen "H" 128⟩ = GenGadgetResult.err e →
      gen_rangeproof gadget getGen val blinding lower upper transcript_label
        g h c = some (Except.error GenRangeProofError.InvalidProof)) := by
  have hrun := gen_rangeproof_run gadget getGen val blinding lower upper
    transcript_label g h c hub hvz b' hb g' h' c' hg hh hc
  constructor
  · intro proof com_v com_min com_max hG
    have hrun2 : gen_rangeproof gadget getGen val blinding lower upper
        transcript_label g h c =
          some (if c' = com_v then
              Except.ok ⟨proof, (com_min, com_max)⟩
            else Except.error GenRangeProofError.InvalidCommitment) := by
      rw [hrun, hG]
    refine ⟨?_, ?_, ?_⟩
    · constructor
      · rintro ⟨bp, hbp⟩
        rw [hrun2] at hbp
        by_cases hcv : c' = com_v
        · exact hcv
        · rw [if_neg hcv] at hbp
          simp at hbp
      · intro hcv
        exact ⟨⟨proof, (com_min, com_max)⟩, by rw [hrun2, if_pos hcv]⟩
    · intro hcv
      rw [hrun2, if_pos hcv]
    · intro hcv
      rw [hrun2, if_neg hcv]
  · intro e hG
    rw [hrun, hG]

/-- Witness for C1: a gadget succeeding with internal commitment equal to
the bridged external commitment `(0, 0)` yields the `Bulletproof`. -/
theorem gen_commitment_dispatch_witness :
    gen_rangeproof (fun _ => GenGadgetResult.ok ⟨7⟩ ⟨0, 0⟩ ⟨1, 2⟩ ⟨3, 4⟩)
      (fun _ _ => []) ⟨![0, 0, 0, 0]⟩ ⟨![0, 0, 0, 0]⟩ 0 255 []
      ⟨⟨![0, 0, 0, 0, 0, 0]⟩, ⟨![0, 0, 0, 0, 0, 0]⟩⟩
      ⟨⟨![0, 0, 0, 0, 0, 0]⟩, ⟨![0, 0, 0, 0, 0, 0]⟩⟩
      ⟨⟨![0, 0, 0, 0, 0, 0]⟩, ⟨![0, 0, 0, 0, 0, 0]⟩⟩ =
      some (Except.ok ⟨⟨7⟩, (⟨1, 2⟩, ⟨3, 4⟩)⟩) :=
  ((gen_commitment_dispatch (fun _ => GenGadgetResult.ok ⟨7⟩ ⟨0, 0⟩ ⟨1, 2⟩ ⟨3, 4⟩)
      (fun _ _ => []) ⟨![0, 0, 0, 0]⟩ ⟨![0, 0, 0, 0]⟩ 0 255 []
      ⟨⟨![0, 0, 0, 0, 0, 0]⟩, ⟨![0, 0, 0, 0, 0, 0]⟩⟩
      ⟨⟨![0, 0, 0, 0, 0, 0]⟩, ⟨![0, 0, 0, 0, 0, 0]⟩⟩
      ⟨⟨![0, 0, 0, 0, 0, 0]⟩, ⟨![0, 0, 0, 0, 0, 0]⟩⟩
      (by decide) (by decide) 0 (by decide) ⟨0, 0⟩ ⟨0, 0⟩ ⟨0, 0⟩
      (by decide) (by decide) (by decide)).1
    ⟨7⟩ ⟨0, 0⟩ ⟨1, 2⟩ ⟨3, 4⟩ rfl).2.1 rfl

/-- C2: for every scalar `val` (with `u64` limbs) reaching the check,
`gen_rangeproof` returns `ValOverflow` if and only if some limb of `val`'s
four-limb representation above index 0 is nonzero, i.e. exactly when the
value is `≥ 2^64`; for every `val < 2^64` the overflow check never triggers
and the value passed onward to the gadget is exactly limb 0. -/
theorem val_overflow_iff (gadget : GenGadgetArgs → GenGadgetResult)
    (getGen : String → Nat → List G1B) (val blinding : FrRepr)
    (lower upper : Nat) (transcript_label : List Nat) (g h c : PpG1)
    (hlv : val.limbsValid) (hub : lower ≤ upper)
    (b' : Nat) (hb : pp_fr_to_amcl_fieldelement blinding = some b')
    (g' h' c' : G1B) (hg : pp_g1_to_amcl_g1 g = some g')
    (hh : pp_g1_to_amcl_g1 h = some h') (hc : pp_g1_to_amcl_g1 c = some c') :
    (gen_rangeproof gadget getGen val blinding lower upper transcript_label
        g h c = some (Except.error GenRangeProofError.ValOverflow) ↔
      2 ^ 64 ≤ val.value) ∧
    (val.value < 2 ^ 64 →
      val.limbs 0 = val.value ∧
      gen_rangeproof gadget getGen val blinding lower upper transcript_label
          g h c =
        some (match gadget ⟨val.limbs 0, some b', lower, upper,
            64 - leading_zeros64 (upper - lower), transcript_label, g', h',
            getGen "G" 128, getGen "H" 128⟩ with
          | GenGadgetResult.ok proof com_v com_min com_max =>
              if c' = com_v then Except.ok ⟨proof, (com_min, com_max)⟩
              else Except.error GenRangeProofError.InvalidCommitment
          | GenGadgetResult.err _ =>
              Except.error GenRangeProofError.InvalidProof)) := by
  have hv0 := hlv 0
  have hv1 := hlv 1
  have hv2 := hlv 2
  have hv3 := hlv 3
  have hiff : 2 ^ 64 ≤ val.value ↔
      (val.limbs 1 > 0 ∨ val.limbs 2 > 0 ∨ val.limbs 3 > 0) := by
    unfold FrRepr.value
    constructor
    · intro hge
      by_contra hz
      push_neg at hz
      omega
    · intro hnz
      have e1 : (2 : Nat) ^ 64 ≤ 2 ^ 128 := by norm_num
      have e2 : (2 : Nat) ^ 64 ≤ 2 ^ 192 := by norm_num
      rcases hnz with hn | hn | hn
      · have : 2 ^ 64 ≤ val.limbs 1 * 2 ^ 64 := Nat.le_mul_of_pos_left _ hn
        omega
      · have : 2 ^ 128 ≤ val.limbs 2 * 2 ^ 128 := Nat.le_mul_of_pos_left _ hn
        omega
      · have : 2 ^ 192 ≤ val.limbs 3 * 2 ^ 192 := Nat.le_mul_of_pos_left _ hn
        omega
  constructor
  · constructor
    · intro hover
      by_contra hlt
      push_neg at hlt
      have hz : ¬(val.limbs 1 > 0 ∨ val.limbs 2 > 0 ∨ val.limbs 3 > 0) := by
        intro hnz
        exact absurd (hiff.mpr hnz) (not_le.mpr hlt)
      have hrun := gen_rangeproof_run gadget getGen val blinding lower upper
        transcript_label g h c hub hz b' hb g' h' c' hg hh hc
      rw [hrun] at hover
      cases hG : gadget ⟨val.limbs 0, some b', lower, upper,
          64 - leading_zeros64 (upper - lower), transcript_label, g', h',
          getGen "G" 128, getGen "H" 128⟩ with
      | ok proof com_v com_min com_max =>
          rw [hG] at hover
          by_cases hcv : c' = com_v
          · simp [hcv] at hover
          · simp [hcv] at hover
      | err e =>
          rw [hG] at hover
          simp at hover
    · intro hge
      exact gen_rangeproof_overflow gadget getGen val blinding lower upper
        transcript_label g h c hub (hiff.mp hge)
  · intro hlt
    have hz : ¬(val.limbs 1 > 0 ∨ val.limbs 2 > 0 ∨ val.limbs 3 > 0) := by
      intro hnz
      exact absurd (hiff.mpr hnz) (not_le.mpr hlt)
    refine ⟨?_, gen_rangeproof_run gadget getGen val blinding lower upper
      transcript_label g h c hub hz b' hb g' h' c' hg hh hc⟩
    push_neg at hz
    unfold FrRepr.value
    omega

/-- Witness for C2 at the overflowing scalar with limbs `(0, 1, 0, 0)`
(value `2^64`) and at the in-range zero scalar. -/
theorem val_overflow_iff_witness :
    (gen_rangeproof (fun _ => GenGadgetResult.err ⟨0⟩) (fun _ _ => [])
        ⟨![0, 1, 0, 0]⟩ ⟨![0, 0, 0, 0]⟩ 0 255 []
        ⟨⟨![0, 0, 0, 0, 0, 0]⟩, ⟨![0, 0, 0, 0, 0, 0]⟩⟩
        ⟨⟨![0, 0, 0, 0, 0, 0]⟩, ⟨![0, 0, 0, 0, 0, 0]⟩⟩
        ⟨⟨![0, 0, 0, 0, 0, 0]⟩, ⟨![0, 0, 0, 0, 0, 0]⟩⟩ =
        some (Except.error GenRangeProofError.ValOverflow) ↔
      2 ^ 64 ≤ FrRepr.value ⟨![0, 1, 0, 0]⟩) ∧
    (FrRepr.limbs ⟨![0, 0, 0, 0]⟩ 0 = FrRepr.value ⟨![0, 0, 0, 0]⟩ ∧
      gen_rangeproof (fun _ => GenGadgetResult.err ⟨0⟩) (fun _ _ => [])
        ⟨![0, 0, 0, 0]⟩ ⟨![0, 0, 0, 0]⟩ 0 255 []
        ⟨⟨![0, 0, 0, 0, 0, 0]⟩, ⟨![0, 0, 0, 0, 0, 0]⟩⟩
        ⟨⟨![0, 0, 0, 0, 0, 0]⟩, ⟨![0, 0, 0, 0, 0, 0]⟩⟩
        ⟨⟨![0, 0, 0, 0, 0, 0]⟩, ⟨![0, 0, 0, 0, 0, 0]⟩⟩ =
        some (Except.error GenRangeProofError.InvalidProof)) :=
  ⟨(val_overflow_iff (fun _ => GenGadgetResult.err ⟨0⟩) (fun _ _ => [])
      ⟨![0, 1, 0, 0]⟩ ⟨![0, 0, 0, 0]⟩ 0 255 []
      ⟨⟨![0, 0, 0, 0, 0, 0]⟩, ⟨![0, 0, 0, 0, 0, 0]⟩⟩
      ⟨⟨![0, 0, 0, 0, 0, 0]⟩, ⟨![0, 0, 0, 0, 0, 0]⟩⟩
      ⟨⟨![0, 0, 0, 0, 0, 0]⟩, ⟨![0, 0, 0, 0, 0, 0]⟩⟩
      (by decide) (by decide) 0 (by decide) ⟨0, 0⟩ ⟨0, 0⟩ ⟨0, 0⟩
      (by decide) (by decide) (by decide)).1,
    (val_overflow_iff (fun _ => GenGadgetResult.err ⟨0⟩) (fun _ _ => [])
      ⟨![0, 0, 0, 0]⟩ ⟨![0, 0, 0, 0]⟩ 0 255 []
      ⟨⟨![0, 0, 0, 0, 0, 0]⟩, ⟨![0, 0, 0, 0, 0, 0]⟩⟩
      ⟨⟨![0, 0, 0, 0, 0, 0]⟩, ⟨![0, 0, 0, 0, 0, 0]⟩⟩
      ⟨⟨![0, 0, 0, 0, 0, 0]⟩, ⟨![0, 0, 0, 0, 0, 0]⟩⟩
      (by decide) (by decide) 0 (by decide) ⟨0, 0⟩ ⟨0, 0⟩ ⟨0, 0⟩
      (by decide) (by decide) (by decide)).2 (by decide)⟩

/-- C4: `verify_rangeproof` never returns `InvalidCommitment`: for every
input it returns `Ok(())` exactly when the gadget's verification routine
succeeds, and `VerificationError` on every gadget failure — the
`InvalidCommitment` variant of `VerifyRangeProofError` is unreachable
through `verify_rangeproof`. -/
theorem verify_never_invalid_commitment
    (vgadget : VerifyGadgetArgs → Except R1CSError Unit)
    (getGen : String → Nat → List G1B) (bp : Bulletproof)
    (lower upper : Nat) (transcript_label : List Nat) (g h c : PpG1)
    (hub : lower ≤ upper)
    (g' h' c' : G1B) (hg : pp_g1_to_amcl_g1 g = some g')
    (hh : pp_g1_to_amcl_g1 h = some h') (hc : pp_g1_to_amcl_g1 c = some c') :
    (verify_rangeproof vgadget getGen bp lower upper transcript_label g h c =
        some (Except.ok ()) ↔
      vgadget ⟨lower, upper, 64 - leading_zeros64 (upper - lower), bp.proof,
          (c', bp.commitments), transcript_label, g', h',
          getGen "G" 128, getGen "H" 128⟩ = Except.ok ()) ∧
    (∀ e, vgadget ⟨lower, upper, 64 - leading_zeros64 (upper - lower), bp.proof,
          (c', bp.commitments), transcript_label, g', h',
          getGen "G" 128, getGen "H" 128⟩ = Except.error e →
      verify_rangeproof vgadget getGen bp lower upper transcript_label g h c =
        some (Except.error VerifyRangeProofError.VerificationError)) ∧
    (∀ (vg : VerifyGadgetArgs → Except R1CSError Unit)
        (gG : String → Nat → List G1B) (bp₂ : Bulletproof) (l u : Nat)
        (lab : List Nat) (g₂ h₂ c₂ : PpG1),
      verify_rangeproof vg gG bp₂ l u lab g₂ h₂ c₂ ≠
        some (Except.error VerifyRangeProofError.InvalidCommitment)) := by
  have hrun := verify_rangeproof_run vgadget getGen bp lower upper
    transcript_label g h c hub g' h' c' hg hh hc
  refine ⟨?_, ?_, ?_⟩
  · rw [hrun]
    cases hV : vgadget ⟨lower, upper, 64 - leading_zeros64 (upper - lower),
        bp.proof, (c', bp.commitments), transcript_label, g', h',
        getGen "G" 128, getGen "H" 128⟩ with
    | ok u =>
        cases u
        simp
    | error e => simp
  · intro e hV
    rw [hrun, hV]
  · intro vg gG bp₂ l u lab g₂ h₂ c₂ hEq
    unfold verify_rangeproof at hEq
    cases hm : verify_max_bits_in_val l u with
    | none =>
        rw [hm] at hEq
        simp at hEq
    | some m =>
        rw [hm] at hEq
        cases hg2 : pp_g1_to_amcl_g1 g₂ with
        | none =>
            rw [hg2] at hEq
            simp at hEq
        | some gv =>
            rw [hg2] at hEq
            cases hh2 : pp_g1_to_amcl_g1 h₂ with
            | none =>
                rw [hh2] at hEq
                simp at hEq
            | some hv =>
                rw [hh2] at hEq
                cases hc2 : pp_g1_to_amcl_g1 c₂ with
                | none =>
                    rw [hc2] at hEq
                    simp at hEq
                | some cv =>
                    rw [hc2] at hEq
                    simp only [Option.bind_eq_bind, Option.some_bind] at hEq
                    cases hr : vg ⟨l, u, m, bp₂.proof, (cv, bp₂.commitments),
                        lab, gv, hv, gG "G" 128, gG "H" 128⟩ with
                    | ok w =>
                        rw [hr] at hEq
                        simp at hEq
                    | error e =>
                        rw [hr] at hEq
                        simp at hEq

/-- Witness for C4 with an always-accepting and an always-rejecting
verification gadget. -/
theorem verify_never_invalid_commitment_witness :
    (verify_rangeproof (fun _ => Except.ok ()) (fun _ _ => [])
        ⟨⟨0⟩, (⟨0, 0⟩, ⟨0, 0⟩)⟩ 0 255 []
        ⟨⟨![0, 0, 0, 0, 0, 0]⟩, ⟨![0, 0, 0, 0, 0, 0]⟩⟩
        ⟨⟨![0, 0, 0, 0, 0, 0]⟩, ⟨![0, 0, 0, 0, 0, 0]⟩⟩
        ⟨⟨![0, 0, 0, 0, 0, 0]⟩, ⟨![0, 0, 0, 0, 0, 0]⟩⟩ =
        some (Except.ok ()) ↔
      (fun (_ : VerifyGadgetArgs) => Except.ok ())
          ⟨0, 255, 64 - leading_zeros64 (255 - 0), ⟨0⟩,
            (⟨0, 0⟩, (⟨0, 0⟩, ⟨0, 0⟩)), [], ⟨0, 0⟩, ⟨0, 0⟩, [], []⟩ =
        (Except.ok () : Except R1CSError Unit)) ∧
    verify_rangeproof (fun _ => Except.error ⟨3⟩) (fun _ _ => [])
      ⟨⟨0⟩, (⟨0, 0⟩, ⟨0, 0⟩)⟩ 0 255 []
      ⟨⟨![0, 0, 0, 0, 0, 0]⟩, ⟨![0, 0, 0, 0, 0, 0]⟩⟩
      ⟨⟨![0, 0, 0, 0, 0, 0]⟩, ⟨![0, 0, 0, 0, 0, 0]⟩⟩
      ⟨⟨![0, 0, 0, 0, 0, 0]⟩, ⟨![0, 0, 0, 0, 0, 0]⟩⟩ =
      some (Except.error VerifyRangeProofError.VerificationError) :=
  ⟨(verify_never_invalid_commitment (fun _ => Except.ok ()) (fun _ _ => [])
      ⟨⟨0⟩, (⟨0, 0⟩, ⟨0, 0⟩)⟩ 0 255 []
      ⟨⟨![0, 0, 0, 0, 0, 0]⟩, ⟨![0, 0, 0, 0, 0, 0]⟩⟩
      ⟨⟨![0, 0, 0, 0, 0, 0]⟩, ⟨![0, 0, 0, 0, 0, 0]⟩⟩
      ⟨⟨![0, 0, 0, 0, 0, 0]⟩, ⟨![0, 0, 0, 0, 0, 0]⟩⟩
      (by decide) ⟨0, 0⟩ ⟨0, 0⟩ ⟨0, 0⟩
      (by decide) (by decide) (by decide)).1,
    (verify_never_invalid_commitment (fun _ => Except.error ⟨3⟩) (fun _ _ => [])
      ⟨⟨0⟩, (⟨0, 0⟩, ⟨0, 0⟩)⟩ 0 255 []
      ⟨⟨![0, 0, 0, 0, 0, 0]⟩, ⟨![0, 0, 0, 0, 0, 0]⟩⟩
      ⟨⟨![0, 0, 0, 0, 0, 0]⟩, ⟨![0, 0, 0, 0, 0, 0]⟩⟩
      ⟨⟨![0, 0, 0, 0, 0, 0]⟩, ⟨![0, 0, 0, 0, 0, 0]⟩⟩
      (by decide) ⟨0, 0⟩ ⟨0, 0⟩ ⟨0, 0⟩
      (by decide) (by decide) (by decide)).2.1 ⟨3⟩ rfl⟩

/-- C8: bridge parsing failures are not recoverable errors: for every valid
representation-A scalar the failure branch of library B's field-element
constructor in `pp_fr_to_amcl_fieldelement` is unreachable (the zero-padded
48-byte buffer always parses), and if parsing ever did fail in the scalar
or point bridge, `gen_rangeproof` aborts (result `none`, a panic) rather
than returning an error value to the caller. -/
theorem bridge_failures_abort (x : FrRepr) (hx : x.valid)
    (gadget : GenGadgetArgs → GenGadgetResult)
    (getGen : String → Nat → List G1B) (val blinding : FrRepr)
    (lower upper : Nat) (transcript_label : List Nat) (g h c : PpG1)
    (hub : lower ≤ upper)
    (hvz : ¬(val.limbs 1 > 0 ∨ val.limbs 2 > 0 ∨ val.limbs 3 > 0))
    (hfail : pp_fr_to_amcl_fieldelement blinding = none ∨
      pp_g1_to_amcl_g1 g = none ∨ pp_g1_to_amcl_g1 h = none ∨
      pp_g1_to_amcl_g1 c = none) :
    (pp_fr_to_amcl_fieldelement x).isSome ∧
    gen_rangeproof gadget getGen val blinding lower upper transcript_label
      g h c = none := by
  refine ⟨by rw [pp_fr_to_amcl_fieldelement_eq x hx]; rfl, ?_⟩
  unfold gen_rangeproof
  rw [gen_max_bits_in_val_of_le hub]
  simp only [Option.bind_eq_bind, Option.some_bind]
  rw [if_neg hvz]
  cases hB : pp_fr_to_amcl_fieldelement blinding with
  | none => simp [hB]
  | some b' =>
      cases hG : pp_g1_to_amcl_g1 g with
      | none => simp [hB, hG]
      | some g' =>
          cases hH : pp_g1_to_amcl_g1 h with
          | none => simp [hB, hG, hH]
          | some h' =>
              cases hC : pp_g1_to_amcl_g1 c with
              | none => simp [hB, hG, hH, hC]
              | some c' =>
                  rcases hfail with hf | hf | hf | hf
                  · simp [hB] at hf
                  · simp [hG] at hf
                  · simp [hH] at hf
                  · simp [hC] at hf

/-- Witness for C8: the valid scalar with limbs `(1, 0, 0, 0)` always
parses, and a blinding scalar with value `2^255` (above the group order)
makes the bridge fail and the whole call abort. -/
theorem bridge_failures_abort_witness :
    (pp_fr_to_amcl_fieldelement ⟨![1, 0, 0, 0]⟩).isSome ∧
    gen_rangeproof (fun _ => GenGadgetResult.err ⟨0⟩) (fun _ _ => [])
      ⟨![0, 0, 0, 0]⟩ ⟨![0, 0, 0, 2 ^ 63]⟩ 0 255 []
      ⟨⟨![0, 0, 0, 0, 0, 0]⟩, ⟨![0, 0, 0, 0, 0, 0]⟩⟩
      ⟨⟨![0, 0, 0, 0, 0, 0]⟩, ⟨![0, 0, 0, 0, 0, 0]⟩⟩
      ⟨⟨![0, 0, 0, 0, 0, 0]⟩, ⟨![0, 0, 0, 0, 0, 0]⟩⟩ = none :=
  bridge_failures_abort ⟨![1, 0, 0, 0]⟩ (by decide)
    (fun _ => GenGadgetResult.err ⟨0⟩) (fun _ _ => [])
    ⟨![0, 0, 0, 0]⟩ ⟨![0, 0, 0, 2 ^ 63]⟩ 0 255 []
    ⟨⟨![0, 0, 0, 0, 0, 0]⟩, ⟨![0, 0, 0, 0, 0, 0]⟩⟩
    ⟨⟨![0, 0, 0, 0, 0, 0]⟩, ⟨![0, 0, 0, 0, 0, 0]⟩⟩
    ⟨⟨![0, 0, 0, 0, 0, 0]⟩, ⟨![0, 0, 0, 0, 0, 0]⟩⟩
    (by decide) (by decide) (Or.inl (by decide))

end PairingPlusWrapper
